import Mathlib

/-!
Shallow embedding of `src/ingest.py` (sp-violence-heatmap data ingestion
script) and verification of its specification claims.

Modelling conventions:
* Files are byte lists; a filesystem state maps absolute paths
  (component lists, relative to the project root `ROOT = []`) to file
  contents, tracks the set of created directories, and accumulates
  stderr lines.  Stdout progress lines are not tracked (no claim
  mentions them).
* The filesystem has no symlinks and all paths are already canonical,
  so Python's `Path.resolve()` is the identity and resolved-path
  equality is plain path equality.
* External library calls are environment parameters: `hashlib.sha256`
  hexdigest is `Env.sha256`, `json.dumps` (pretty-printed UTF-8) is
  `Env.encodeMeta`, `datetime.now(...)` is the constant `Env.nowIso`
  for the run, and the pandas readers/writer are the fields of
  `Pandas`.  A pandas DataFrame is abstracted to its ordered column
  names and row count, which is all the claims observe.
* `pd.read_excel` with `sheet_name=None` returns a dict of all sheets
  (not a DataFrame); this is modelled by `ReadResult.multi`.  The
  subsequent `df.to_parquet` call on that dict raises
  `AttributeError`, after `write_parquet` has already created the
  output directory.
* `pd.DataFrame.__setitem__` with a scalar value replaces an existing
  column in place (order and row count unchanged) and appends a new
  column at the end otherwise; values are not tracked.
-/

namespace Ingest

/-- A file's contents: a list of byte values. -/
abbrev Bytes := List Nat

/-- An absolute path, as components relative to the project root. -/
abbrev FPath := List String

/-- Abstraction of a pandas DataFrame: ordered column names and row count. -/
structure DF where
  cols : List String
  nrows : Nat
deriving DecidableEq

/-- A JSON-compatible value stored in the metadata record. -/
inductive MetaVal where
  | s (v : String)
  | n (v : Nat)
  | arr (v : List String)
deriving DecidableEq

/-- The metadata record: an insertion-ordered dict (Python dicts keep insertion order). -/
abbrev MetaDict := List (String × MetaVal)

/-- Python exceptions that the script can raise. -/
inductive Err where
  | fileNotFound (msg : String)
  | valueError (msg : String)
  | runtimeError (msg : String)
  | attributeError (msg : String)
  | httpError (status : Nat)
deriving DecidableEq

/-- Decidable equality for `Except` results, used to evaluate concrete runs. -/
instance {ε α : Type} [DecidableEq ε] [DecidableEq α] : DecidableEq (Except ε α) :=
  fun a b =>
    match a, b with
    | Except.ok x, Except.ok y =>
      if h : x = y then isTrue (by rw [h]) else isFalse (fun hc => by cases hc; exact h rfl)
    | Except.error x, Except.error y =>
      if h : x = y then isTrue (by rw [h]) else isFalse (fun hc => by cases hc; exact h rfl)
    | Except.ok _, Except.error _ => isFalse (fun hc => by cases hc)
    | Except.error _, Except.ok _ => isFalse (fun hc => by cases hc)

/-- Observable machine state: file contents, created directories, stderr lines. -/
structure State where
  files : FPath → Option Bytes
  dirs : List FPath
  stderrLines : List String

/-- Write a file (create or overwrite). -/
def State.write (st : State) (p : FPath) (b : Bytes) : State :=
  { st with files := fun q => if q = p then some b else st.files q }

/-- `Path.mkdir(parents=True, exist_ok=True)`: record the directory if absent. -/
def State.mkdirp (st : State) (p : FPath) : State :=
  if p ∈ st.dirs then st else { st with dirs := st.dirs ++ [p] }

/-- `print(msg, file=sys.stderr)`. -/
def State.errPrint (st : State) (msg : String) : State :=
  { st with stderrLines := st.stderrLines ++ [msg] }

/-- Project root; all paths are relative to it. -/
def ROOT : FPath := []

/-- `ROOT / "data" / "raw"`. -/
def RAW_DIR : FPath := ["data", "raw"]

/-- `ROOT / "data" / "processed" / "ingested"`. -/
def PROC_DIR : FPath := ["data", "processed", "ingested"]

/-- `Path.name`: the final path component (empty for the root). -/
def pathName : FPath → String
  | [] => ""
  | [x] => x
  | _ :: rest => pathName rest

/-- `str(path)` for a root-relative path (also `str(path.relative_to(ROOT))`). -/
def pathString (p : FPath) : String := String.intercalate "/" p

/-- Index of the last `.` in a character list, if any. -/
def rfindDot : List Char → Option Nat
  | [] => none
  | c :: rest =>
    match rfindDot rest with
    | some i => some (i + 1)
    | none => if c = '.' then some 0 else none

/-- `pathlib` suffix of a file name: from the last dot, but empty when the
dot is the first or last character (`.hidden` and `name.` have no suffix). -/
def pySuffix (nm : String) : String :=
  let cs := nm.toList
  match rfindDot cs with
  | some i => if 0 < i ∧ i + 1 < cs.length then String.mk (cs.drop i) else ""
  | none => ""

/-- `pathlib` stem of a file name: the name with its suffix removed. -/
def pyStem (nm : String) : String :=
  let cs := nm.toList
  match rfindDot cs with
  | some i => if 0 < i ∧ i + 1 < cs.length then String.mk (cs.take i) else nm
  | none => nm

/-- ASCII lower-casing of one character (`str.lower` restricted to ASCII,
which covers every extension the sniffer compares against). -/
def pyLowerChar (c : Char) : Char :=
  if 'A' ≤ c ∧ c ≤ 'Z' then Char.ofNat (c.toNat + 32) else c

/-- `str.lower()` on ASCII strings. -/
def pyLower (s : String) : String :=
  String.mk (s.toList.map pyLowerChar)

/-- `sniff_format`: classify a path by its lower-cased extension only. -/
def sniff_format (p : FPath) : String :=
  let ext := pyLower (pySuffix (pathName p))
  if ext = ".csv" then "csv"
  else if ext = ".json" ∨ ext = ".geojson" then "json"
  else if ext = ".xlsx" ∨ ext = ".xls" then "excel"
  else if ext = ".parquet" then "parquet"
  else "unknown"

/-- The pandas library surface used by the script.  `read_excel` exposes the
workbook as its ordered list of (sheet name, frame) pairs. -/
structure Pandas where
  read_csv : Bytes → DF
  read_json : Bytes → DF
  read_excel : Bytes → List (String × DF)
  read_parquet : Bytes → DF
  to_parquet : DF → Bytes

/-- Ambient libraries and the (fixed, per-run) clock. -/
structure Env where
  pandas : Pandas
  sha256 : Bytes → String
  nowIso : String
  encodeMeta : MetaDict → Bytes

/-- `sha256_file`: hash the stored bytes of the file at `p`. -/
def sha256_file (env : Env) (st : State) (p : FPath) : Except Err String :=
  match st.files p with
  | none => Except.error (Err.fileNotFound (pathString p))
  | some b => Except.ok (env.sha256 b)

/-- `ensure_dirs`: idempotently create the two storage directories. -/
def ensure_dirs (st : State) : State :=
  (st.mkdirp RAW_DIR).mkdirp PROC_DIR

/-- An HTTP client: URL to body, or a non-success status code. -/
abbrev Http := String → Except Nat Bytes

/-- `download_file`: guard on the optional `requests` import, then create the
parent directory and stream the body to `dest` (chunking not modelled). -/
def download_file (req : Option Http) (st : State) (url : String) (dest : FPath) :
    State × Except Err Unit :=
  match req with
  | none =>
    (st, Except.error (Err.runtimeError
      "requests is not installed. Install it or use --input local files."))
  | some get =>
    let st1 := st.mkdirp dest.dropLast
    match get url with
    | Except.error code => (st1, Except.error (Err.httpError code))
    | Except.ok body => (st1.write dest body, Except.ok ())

/-- Result of `read_any`: a DataFrame, or (for `sheet_name=None` on an Excel
file) the dict of all sheets that pandas returns instead. -/
inductive ReadResult where
  | single (df : DF)
  | multi (sheets : List (String × DF))
deriving DecidableEq

/-- Select a sheet by name from a workbook. -/
def lookupSheet (s : String) : List (String × DF) → Option DF
  | [] => none
  | (nm, df) :: rest => if nm = s then some df else lookupSheet s rest

/-- Format dispatch of `read_any` on the file's bytes (the file-open step is
in `read_any` itself). -/
def parse_bytes (pd : Pandas) (p : FPath) (b : Bytes) (excel_sheet : Option String) :
    Except Err ReadResult :=
  let fmt := sniff_format p
  if fmt = "csv" then Except.ok (ReadResult.single (pd.read_csv b))
  else if fmt = "json" then Except.ok (ReadResult.single (pd.read_json b))
  else if fmt = "excel" then
    match excel_sheet with
    | some s =>
      match lookupSheet s (pd.read_excel b) with
      | some df => Except.ok (ReadResult.single df)
      | none => Except.error (Err.valueError ("Worksheet named " ++ s ++ " not found"))
    | none => Except.ok (ReadResult.multi (pd.read_excel b))
  else if fmt = "parquet" then Except.ok (ReadResult.single (pd.read_parquet b))
  else Except.error (Err.valueError
    ("Unsupported file format: " ++ pathName p ++ " (" ++ pySuffix (pathName p) ++ ")"))

/-- `read_any`: open the file at `p` and parse it according to its sniffed format. -/
def read_any (pd : Pandas) (st : State) (p : FPath) (excel_sheet : Option String) :
    Except Err ReadResult :=
  match st.files p with
  | none => Except.error (Err.fileNotFound (pathString p))
  | some b => parse_bytes pd p b excel_sheet

/-- `df[nm] = <scalar>`: replace an existing column in place, else append it. -/
def DF.setConstCol (df : DF) (nm : String) : DF :=
  if nm ∈ df.cols then df else { df with cols := df.cols ++ [nm] }

/-- `write_parquet`: create the parent directory, then serialize the frame. -/
def write_parquet (env : Env) (st : State) (df : DF) (out_path : FPath) : State :=
  (st.mkdirp out_path.dropLast).write out_path (env.pandas.to_parquet df)

/-- `write_metadata`: create the parent directory, then serialize the record. -/
def write_metadata (env : Env) (st : State) (meta : MetaDict) (out_path : FPath) : State :=
  (st.mkdirp out_path.dropLast).write out_path (env.encodeMeta meta)

/-- `raw_name or source_path.name`. -/
def targetNameOf (source_path : FPath) (raw_name : Option String) : String :=
  raw_name.getD (pathName source_path)

/-- `RAW_DIR / target_name`. -/
def rawPathOf (source_path : FPath) (raw_name : Option String) : FPath :=
  RAW_DIR ++ [targetNameOf source_path raw_name]

/-- `PROC_DIR / f"{raw_path.stem}.parquet"`. -/
def parquetPathOf (source_path : FPath) (raw_name : Option String) : FPath :=
  PROC_DIR ++ [pyStem (targetNameOf source_path raw_name) ++ ".parquet"]

/-- `PROC_DIR / f"{raw_path.stem}.meta.json"`. -/
def metaPathOf (source_path : FPath) (raw_name : Option String) : FPath :=
  PROC_DIR ++ [pyStem (targetNameOf source_path raw_name) ++ ".meta.json"]

/-- The copy-to-raw step of `ingest_one`: skip when the (resolved) source is
already the raw destination, else copy the source bytes. -/
def copy_step (st : State) (source_path raw_path : FPath) (srcBytes : Bytes) : State :=
  if source_path = raw_path then st else st.write raw_path srcBytes

/-- Dict lookup on the metadata record (keys are unique in practice). -/
def metaGet (k : String) : MetaDict → Option MetaVal
  | [] => none
  | (k2, v) :: rest => if k2 = k then some v else metaGet k rest

/-- `ingest_one`: single-file ingestion.  Returns the state at exit together
with the returned metadata dict or the raised exception. -/
def ingest_one (env : Env) (st : State) (source_path : FPath) (raw_name : Option String)
    (excel_sheet : Option String) (skip_parquet : Bool) : State × Except Err MetaDict :=
  let st0 := ensure_dirs st
  match st0.files source_path with
  | none => (st0, Except.error (Err.fileNotFound (pathString source_path)))
  | some srcBytes =>
    let raw_path := rawPathOf source_path raw_name
    let st1 := copy_step st0 source_path raw_path srcBytes
    match sha256_file env st1 raw_path with
    | Except.error e => (st1, Except.error e)
    | Except.ok digest =>
      let meta0 : MetaDict :=
        [("raw_file", MetaVal.s (pathString raw_path)),
         ("original_path", MetaVal.s (pathString source_path)),
         ("format", MetaVal.s (sniff_format raw_path)),
         ("sha256", MetaVal.s digest),
         ("ingested_at", MetaVal.s env.nowIso)]
      if skip_parquet then
        let meta_path := metaPathOf source_path raw_name
        let st2 := write_metadata env st1 meta0 meta_path
        (st2, Except.ok (meta0 ++ [("metadata", MetaVal.s (pathString meta_path))]))
      else
        match read_any env.pandas st1 raw_path excel_sheet with
        | Except.error e => (st1, Except.error e)
        | Except.ok (ReadResult.multi _) =>
          ((st1.mkdirp (parquetPathOf source_path raw_name).dropLast),
           Except.error (Err.attributeError "dict object has no attribute to_parquet"))
        | Except.ok (ReadResult.single df0) =>
          let df := (df0.setConstCol "source_file").setConstCol "ingested_at"
          let out_parquet := parquetPathOf source_path raw_name
          let st2 := write_parquet env st1 df out_parquet
          let meta1 := meta0 ++
            [("parquet", MetaVal.s (pathString out_parquet)),
             ("rows", MetaVal.n df.nrows),
             ("columns", MetaVal.arr df.cols)]
          let meta_path := metaPathOf source_path raw_name
          let st3 := write_metadata env st2 meta1 meta_path
          (st3, Except.ok (meta1 ++ [("metadata", MetaVal.s (pathString meta_path))]))

/-- `Path(url.split("?")[0]).name or f"download_{i}"`: the last nonempty
component of the URL's pre-query part, with a numbered fallback. -/
def urlFname (url : String) (i : Nat) : String :=
  let base := ((url.splitOn "?").headD "")
  let nm := pathName (((base.splitOn "/").filter (fun c => c ≠ "")))
  if nm = "" then "download_" ++ toString i else nm

/-- Parsed command-line arguments (`--input`, `--url`, `--name`,
`--excel-sheet`, `--skip-parquet`); input paths are already expanded. -/
structure Args where
  inputs : List FPath
  urls : List String
  names : List String
  excel_sheet : Option String
  skip_parquet : Bool

/-- The download loop of `main` over the `--url` list, with running index. -/
def processUrls (env : Env) (req : Option Http) (names : List String)
    (excel_sheet : Option String) (skip_parquet : Bool) :
    Nat → List String → State → State × Except Err Unit
  | _, [], st => (st, Except.ok ())
  | i, url :: rest, st =>
    let fname := if names ≠ [] then names.getD i "" else urlFname url i
    let dest := RAW_DIR ++ [fname]
    match download_file req st url dest with
    | (st1, Except.error e) => (st1, Except.error e)
    | (st1, Except.ok _) =>
      match ingest_one env st1 dest (some fname) excel_sheet skip_parquet with
      | (st2, Except.error e) => (st2, Except.error e)
      | (st2, Except.ok _) => processUrls env req names excel_sheet skip_parquet (i + 1) rest st2

/-- The local-file loop of `main` over the `--input` list. -/
def processInputs (env : Env) (excel_sheet : Option String) (skip_parquet : Bool) :
    List FPath → State → State × Except Err Unit
  | [], st => (st, Except.ok ())
  | p :: rest, st =>
    match ingest_one env st p none excel_sheet skip_parquet with
    | (st1, Except.error e) => (st1, Except.error e)
    | (st1, Except.ok _) => processInputs env excel_sheet skip_parquet rest st1

/-- The usage-error message for a `--name` / `--url` count mismatch. -/
def nameCountMsg : String :=
  "ERROR: --name must be provided the same number of times as --url (or not used)."

/-- The usage-error message when nothing was requested. -/
def nothingMsg : String :=
  "Nothing to ingest. Use --input <file> or --url <link>."

/-- `main`: ensure directories, validate the `--name` count (only when URLs
are present), run the download loop then the local-file loop, and report the
nothing-to-ingest usage error when both lists were empty.  `Except.ok` is the
returned exit code; `Except.error` is an uncaught exception terminating the
process with the runtime's nonzero status. -/
def main (env : Env) (req : Option Http) (st : State) (args : Args) :
    State × Except Err Nat :=
  let st0 := ensure_dirs st
  if args.urls ≠ [] ∧ args.names ≠ [] ∧ args.names.length ≠ args.urls.length then
    (st0.errPrint nameCountMsg, Except.ok 2)
  else
    match processUrls env req args.names args.excel_sheet args.skip_parquet 0 args.urls st0 with
    | (st1, Except.error e) => (st1, Except.error e)
    | (st1, Except.ok _) =>
      match processInputs env args.excel_sheet args.skip_parquet args.inputs st1 with
      | (st2, Except.error e) => (st2, Except.error e)
      | (st2, Except.ok _) =>
        if args.urls = [] ∧ args.inputs = [] then
          (st2.errPrint nothingMsg, Except.ok 2)
        else (st2, Except.ok 0)

/-! ### Concrete fixtures used by witnesses and counterexamples -/

/-- The DataFrame that `a,b\n1,2\n3,4\n` decodes to. -/
def dfAB : DF := { cols := ["a", "b"], nrows := 2 }

/-- Concrete pandas instance: every reader yields `dfAB`; the workbook has a
single sheet named `Sheet1`. -/
def cPandas : Pandas :=
  { read_csv := fun _ => dfAB
    read_json := fun _ => dfAB
    read_excel := fun _ => [("Sheet1", dfAB)]
    read_parquet := fun _ => dfAB
    to_parquet := fun _ => [7] }

/-- Concrete environment. -/
def cEnv : Env :=
  { pandas := cPandas
    sha256 := fun _ => "deadbeef"
    nowIso := "2026-10-12T00:00:00+00:00"
    encodeMeta := fun _ => [9] }

/-- Bytes of `a,b\n1,2\n3,4\n`. -/
def cBytes : Bytes := [97, 44, 98, 10, 49, 44, 50, 10, 51, 44, 52, 10]

/-- Concrete starting state holding a few local files and nothing else. -/
def cSt : State :=
  { files := fun p =>
      if p = ["home", "t.csv"] then some cBytes
      else if p = ["home", "t.xlsx"] then some [5]
      else if p = ["home", "x.foo"] then some [1, 2]
      else if p = ["data", "raw", "r.csv"] then some [3]
      else none
    dirs := []
    stderrLines := [] }

/-- The metadata dict returned by ingesting `home/t.csv` under `cEnv`/`cSt`
with conversion enabled. -/
def cMetaCsv : MetaDict :=
  [("raw_file", MetaVal.s "data/raw/t.csv"),
   ("original_path", MetaVal.s "home/t.csv"),
   ("format", MetaVal.s "csv"),
   ("sha256", MetaVal.s "deadbeef"),
   ("ingested_at", MetaVal.s "2026-10-12T00:00:00+00:00"),
   ("parquet", MetaVal.s "data/processed/ingested/t.parquet"),
   ("rows", MetaVal.n 2),
   ("columns", MetaVal.arr ["a", "b", "source_file", "ingested_at"]),
   ("metadata", MetaVal.s "data/processed/ingested/t.meta.json")]

/-! ### Basic lemmas about the state operations -/

@[simp] theorem State.write_files (st : State) (p : FPath) (b : Bytes) (q : FPath) :
    (st.write p b).files q = if q = p then some b else st.files q := rfl

@[simp] theorem State.mkdirp_files (st : State) (p : FPath) :
    (st.mkdirp p).files = st.files := by
  unfold State.mkdirp; split <;> rfl

@[simp] theorem State.errPrint_files (st : State) (msg : String) :
    (st.errPrint msg).files = st.files := rfl

@[simp] theorem ensure_dirs_files (st : State) : (ensure_dirs st).files = st.files := by
  simp [ensure_dirs]

theorem copy_step_files_raw {st : State} {src raw : FPath} {b : Bytes}
    (h : st.files src = some b) : (copy_step st src raw b).files raw = some b := by
  unfold copy_step; split
  · next heq => rw [← heq]; exact h
  · simp

theorem copy_step_files_other {st : State} {src raw q : FPath} {b : Bytes}
    (hq : q ≠ raw) : (copy_step st src raw b).files q = st.files q := by
  unfold copy_step; split
  · rfl
  · simp [hq]

theorem raw_ne_proc (t x : String) : (RAW_DIR ++ [t] : FPath) ≠ PROC_DIR ++ [x] := by
  intro h
  have hl := congrArg List.length h
  simp [RAW_DIR, PROC_DIR] at hl

theorem rawPathOf_ne_parquetPathOf (src src2 : FPath) (rn rn2 : Option String) :
    rawPathOf src rn ≠ parquetPathOf src2 rn2 :=
  raw_ne_proc _ _

theorem rawPathOf_ne_metaPathOf (src src2 : FPath) (rn rn2 : Option String) :
    rawPathOf src rn ≠ metaPathOf src2 rn2 :=
  raw_ne_proc _ _

@[simp] theorem DF.setConstCol_nrows (df : DF) (nm : String) :
    (df.setConstCol nm).nrows = df.nrows := by
  unfold DF.setConstCol; split <;> rfl

theorem DF.setConstCol_cols_of_not_mem {df : DF} {nm : String} (h : nm ∉ df.cols) :
    (df.setConstCol nm).cols = df.cols ++ [nm] := by
  unfold DF.setConstCol; rw [if_neg h]

/-- The metadata record built by `ingest_one` before the conversion branch,
with the checksum already expressed over the (stored = copied) bytes `b`. -/
def metaBase (env : Env) (src : FPath) (rn : Option String) (b : Bytes) : MetaDict :=
  [("raw_file", MetaVal.s (pathString (rawPathOf src rn))),
   ("original_path", MetaVal.s (pathString src)),
   ("format", MetaVal.s (sniff_format (rawPathOf src rn))),
   ("sha256", MetaVal.s (env.sha256 b)),
   ("ingested_at", MetaVal.s env.nowIso)]

theorem sha256_file_copy (env : Env) (raw : FPath) {st : State} {src : FPath} {b : Bytes}
    (h : st.files src = some b) :
    sha256_file env (copy_step st src raw b) raw = Except.ok (env.sha256 b) := by
  unfold sha256_file; rw [copy_step_files_raw h]

theorem read_any_copy (pd : Pandas) (raw : FPath) (sheet : Option String)
    {st : State} {src : FPath} {b : Bytes} (h : st.files src = some b) :
    read_any pd (copy_step st src raw b) raw sheet = parse_bytes pd raw b sheet := by
  unfold read_any; rw [copy_step_files_raw h]

/-- Closed form of `ingest_one` in skip-parquet mode for an existing source. -/
theorem ingest_one_skip_eq (env : Env) (st : State) (src : FPath) (rn : Option String)
    (sheet : Option String) (b : Bytes) (h : st.files src = some b) :
    ingest_one env st src rn sheet true =
      (write_metadata env (copy_step (ensure_dirs st) src (rawPathOf src rn) b)
        (metaBase env src rn b) (metaPathOf src rn),
       Except.ok (metaBase env src rn b ++
         [("metadata", MetaVal.s (pathString (metaPathOf src rn)))])) := by
  have h0 : (ensure_dirs st).files src = some b := by rw [ensure_dirs_files]; exact h
  have hsha := sha256_file_copy env (rawPathOf src rn) h0
  simp only [ingest_one, h0, hsha, metaBase, if_true, if_false]

/-- Closed form of `ingest_one` with conversion enabled for an existing source:
the result is determined by the parse of the stored bytes. -/
theorem ingest_one_noskip_eq (env : Env) (st : State) (src : FPath) (rn : Option String)
    (sheet : Option String) (b : Bytes) (h : st.files src = some b) :
    ingest_one env st src rn sheet false =
      (match parse_bytes env.pandas (rawPathOf src rn) b sheet with
       | Except.error e => (copy_step (ensure_dirs st) src (rawPathOf src rn) b, Except.error e)
       | Except.ok (ReadResult.multi _) =>
         ((copy_step (ensure_dirs st) src (rawPathOf src rn) b).mkdirp
            (parquetPathOf src rn).dropLast,
          Except.error (Err.attributeError "dict object has no attribute to_parquet"))
       | Except.ok (ReadResult.single df0) =>
         (write_metadata env
            (write_parquet env (copy_step (ensure_dirs st) src (rawPathOf src rn) b)
              ((df0.setConstCol "source_file").setConstCol "ingested_at") (parquetPathOf src rn))
            (metaBase env src rn b ++
              [("parquet", MetaVal.s (pathString (parquetPathOf src rn))),
               ("rows", MetaVal.n ((df0.setConstCol "source_file").setConstCol "ingested_at").nrows),
               ("columns",
                MetaVal.arr ((df0.setConstCol "source_file").setConstCol "ingested_at").cols)])
            (metaPathOf src rn),
          Except.ok ((metaBase env src rn b ++
             [("parquet", MetaVal.s (pathString (parquetPathOf src rn))),
              ("rows", MetaVal.n ((df0.setConstCol "source_file").setConstCol "ingested_at").nrows),
              ("columns",
               MetaVal.arr ((df0.setConstCol "source_file").setConstCol "ingested_at").cols)]) ++
            [("metadata", MetaVal.s (pathString (metaPathOf src rn)))]))) := by
  have h0 : (ensure_dirs st).files src = some b := by rw [ensure_dirs_files]; exact h
  have hsha := sha256_file_copy env (rawPathOf src rn) h0
  have hread := read_any_copy env.pandas (rawPathOf src rn) sheet h0
  simp only [ingest_one, h0, hsha, hread, metaBase, if_true, if_false]
  cases parse_bytes env.pandas (rawPathOf src rn) b sheet with
  | error e => rfl
  | ok r => cases r with
    | single df0 => rfl
    | multi sheets => rfl

/-- Branch form: conversion enabled and the stored bytes parse to one frame. -/
theorem ingest_one_noskip_single_eq (env : Env) (st : State) (src : FPath)
    (rn sheet : Option String) (b : Bytes) (df0 : DF)
    (h : st.files src = some b)
    (hp : parse_bytes env.pandas (rawPathOf src rn) b sheet =
      Except.ok (ReadResult.single df0)) :
    ingest_one env st src rn sheet false =
      (write_metadata env
         (write_parquet env (copy_step (ensure_dirs st) src (rawPathOf src rn) b)
           ((df0.setConstCol "source_file").setConstCol "ingested_at") (parquetPathOf src rn))
         (metaBase env src rn b ++
           [("parquet", MetaVal.s (pathString (parquetPathOf src rn))),
            ("rows", MetaVal.n ((df0.setConstCol "source_file").setConstCol "ingested_at").nrows),
            ("columns",
             MetaVal.arr ((df0.setConstCol "source_file").setConstCol "ingested_at").cols)])
         (metaPathOf src rn),
       Except.ok ((metaBase env src rn b ++
          [("parquet", MetaVal.s (pathString (parquetPathOf src rn))),
           ("rows", MetaVal.n ((df0.setConstCol "source_file").setConstCol "ingested_at").nrows),
           ("columns",
            MetaVal.arr ((df0.setConstCol "source_file").setConstCol "ingested_at").cols)]) ++
         [("metadata", MetaVal.s (pathString (metaPathOf src rn)))])) := by
  rw [ingest_one_noskip_eq env st src rn sheet b h, hp]

/-- Branch form: conversion enabled and the parse raises. -/
theorem ingest_one_noskip_error_eq (env : Env) (st : State) (src : FPath)
    (rn sheet : Option String) (b : Bytes) (e : Err)
    (h : st.files src = some b)
    (hp : parse_bytes env.pandas (rawPathOf src rn) b sheet = Except.error e) :
    ingest_one env st src rn sheet false =
      (copy_step (ensure_dirs st) src (rawPathOf src rn) b, Except.error e) := by
  rw [ingest_one_noskip_eq env st src rn sheet b h, hp]

/-- Branch form: conversion enabled and pandas returned the all-sheets dict. -/
theorem ingest_one_noskip_multi_eq (env : Env) (st : State) (src : FPath)
    (rn sheet : Option String) (b : Bytes) (sheets : List (String × DF))
    (h : st.files src = some b)
    (hp : parse_bytes env.pandas (rawPathOf src rn) b sheet =
      Except.ok (ReadResult.multi sheets)) :
    ingest_one env st src rn sheet false =
      ((copy_step (ensure_dirs st) src (rawPathOf src rn) b).mkdirp
         (parquetPathOf src rn).dropLast,
       Except.error (Err.attributeError "dict object has no attribute to_parquet")) := by
  rw [ingest_one_noskip_eq env st src rn sheet b h, hp]

@[simp] theorem State.mkdirp_stderrLines (st : State) (p : FPath) :
    (st.mkdirp p).stderrLines = st.stderrLines := by
  unfold State.mkdirp; split <;> rfl

@[simp] theorem State.errPrint_stderrLines (st : State) (msg : String) :
    (st.errPrint msg).stderrLines = st.stderrLines ++ [msg] := rfl

@[simp] theorem State.errPrint_dirs (st : State) (msg : String) :
    (st.errPrint msg).dirs = st.dirs := rfl

@[simp] theorem ensure_dirs_stderrLines (st : State) :
    (ensure_dirs st).stderrLines = st.stderrLines := by
  simp [ensure_dirs]

/-- The table of section 4.2 of the spec, as a function of the lower-cased extension. -/
def sniffSpecTable (ext : String) : String :=
  if ext = ".csv" then "csv"
  else if ext = ".json" ∨ ext = ".geojson" then "json"
  else if ext = ".xlsx" ∨ ext = ".xls" then "excel"
  else if ext = ".parquet" then "parquet"
  else "unknown"

/-! ### Claim theorems -/

/-- C1: a successful `ingest_one` leaves at the raw destination a byte-identical
copy of the source file, and the metadata record's `sha256` field is the hash of
the raw file's bytes as stored. -/
theorem c1_raw_copy_and_checksum (env : Env) (st : State) (src : FPath)
    (rn sheet : Option String) (skip : Bool) (b : Bytes) (st' : State) (meta : MetaDict)
    (hsrc : st.files src = some b)
    (hrun : ingest_one env st src rn sheet skip = (st', Except.ok meta)) :
    st'.files (rawPathOf src rn) = some b ∧
    metaGet "sha256" meta =
      (st'.files (rawPathOf src rn)).map (fun stored => MetaVal.s (env.sha256 stored)) := by
  have h0 : (ensure_dirs st).files src = some b := by rw [ensure_dirs_files]; exact hsrc
  cases skip with
  | true =>
    rw [ingest_one_skip_eq env st src rn sheet b hsrc] at hrun
    rw [Prod.mk.injEq] at hrun
    obtain ⟨hst, hmeta⟩ := hrun
    have hm := Except.ok.inj hmeta
    subst hst
    subst hm
    have hfiles : (write_metadata env (copy_step (ensure_dirs st) src (rawPathOf src rn) b)
        (metaBase env src rn b) (metaPathOf src rn)).files (rawPathOf src rn) = some b := by
      simp only [write_metadata, State.mkdirp_files, State.write_files]
      rw [if_neg (rawPathOf_ne_metaPathOf src src rn rn)]
      exact copy_step_files_raw h0
    exact ⟨hfiles, by rw [hfiles]; rfl⟩
  | false =>
    cases hp : parse_bytes env.pandas (rawPathOf src rn) b sheet with
    | error e =>
      rw [ingest_one_noskip_error_eq env st src rn sheet b e hsrc hp] at hrun
      rw [Prod.mk.injEq] at hrun
      exact absurd hrun.2 (by simp)
    | ok r =>
      cases r with
      | multi sheets =>
        rw [ingest_one_noskip_multi_eq env st src rn sheet b sheets hsrc hp] at hrun
        rw [Prod.mk.injEq] at hrun
        exact absurd hrun.2 (by simp)
      | single df0 =>
        rw [ingest_one_noskip_single_eq env st src rn sheet b df0 hsrc hp] at hrun
        rw [Prod.mk.injEq] at hrun
        obtain ⟨hst, hmeta⟩ := hrun
        have hm := Except.ok.inj hmeta
        subst hst
        subst hm
        have hfiles : (write_metadata env
            (write_parquet env (copy_step (ensure_dirs st) src (rawPathOf src rn) b)
              ((df0.setConstCol "source_file").setConstCol "ingested_at") (parquetPathOf src rn))
            (metaBase env src rn b ++
              [("parquet", MetaVal.s (pathString (parquetPathOf src rn))),
               ("rows", MetaVal.n ((df0.setConstCol "source_file").setConstCol "ingested_at").nrows),
               ("columns",
                MetaVal.arr ((df0.setConstCol "source_file").setConstCol "ingested_at").cols)])
            (metaPathOf src rn)).files (rawPathOf src rn) = some b := by
          simp only [write_metadata, write_parquet, State.mkdirp_files, State.write_files]
          rw [if_neg (rawPathOf_ne_metaPathOf src src rn rn)]
          rw [if_neg (rawPathOf_ne_parquetPathOf src src rn rn)]
          exact copy_step_files_raw h0
        exact ⟨hfiles, by rw [hfiles]; rfl⟩

/-- C1 witness: ingesting the concrete CSV `home/t.csv`. -/
theorem c1_raw_copy_and_checksum_witness :
    (ingest_one cEnv cSt ["home", "t.csv"] none none false).1.files
        (rawPathOf ["home", "t.csv"] none) = some cBytes ∧
    metaGet "sha256" cMetaCsv =
      ((ingest_one cEnv cSt ["home", "t.csv"] none none false).1.files
        (rawPathOf ["home", "t.csv"] none)).map
        (fun stored => MetaVal.s (cEnv.sha256 stored)) :=
  c1_raw_copy_and_checksum cEnv cSt ["home", "t.csv"] none none false cBytes
    (ingest_one cEnv cSt ["home", "t.csv"] none none false).1 cMetaCsv (by decide) (by rfl)

/-- C7: the sniffer equals the spec's five-label table applied to the
lower-cased extension, and depends on nothing but that extension. -/
theorem c7_sniff_pure_extension_table :
    (∀ p : FPath, sniff_format p = sniffSpecTable (pyLower (pySuffix (pathName p)))) ∧
    (∀ p q : FPath, pyLower (pySuffix (pathName p)) = pyLower (pySuffix (pathName q)) →
      sniff_format p = sniff_format q) := by
  constructor
  · intro p; rfl
  · intro p q h
    simp only [sniff_format]
    rw [h]

/-- C7 witness: two paths sharing the extension `.csv` up to case get the same label. -/
theorem c7_sniff_pure_extension_table_witness :
    sniff_format ["dir", "A.CSV"] = sniff_format ["b.csv"] :=
  c7_sniff_pure_extension_table.2 ["dir", "A.CSV"] ["b.csv"] (by decide)

/-- C9: with `--skip-parquet`, ingestion of any existing file succeeds (even for
an unrecognized extension), and the metadata record written to the sidecar has
the sniffed label in `format` and no `parquet`, `rows` or `columns` keys. -/
theorem c9_skip_mode_metadata (env : Env) (st : State) (src : FPath)
    (rn sheet : Option String) (b : Bytes) (hsrc : st.files src = some b) :
    ∃ st2 meta, ingest_one env st src rn sheet true = (st2, Except.ok meta) ∧
      st2.files (metaPathOf src rn) = some (env.encodeMeta (metaBase env src rn b)) ∧
      metaGet "format" (metaBase env src rn b) =
        some (MetaVal.s (sniff_format (rawPathOf src rn))) ∧
      metaGet "parquet" (metaBase env src rn b) = none ∧
      metaGet "rows" (metaBase env src rn b) = none ∧
      metaGet "columns" (metaBase env src rn b) = none := by
  refine ⟨_, _, ingest_one_skip_eq env st src rn sheet b hsrc, ?_, rfl, rfl, rfl, rfl⟩
  simp [write_metadata]

/-- C9 witness: skip-parquet ingestion of `home/x.foo`, an unrecognized extension. -/
theorem c9_skip_mode_metadata_witness :
    ∃ st2 meta, ingest_one cEnv cSt ["home", "x.foo"] none none true =
        (st2, Except.ok meta) ∧
      st2.files (metaPathOf ["home", "x.foo"] none) =
        some (cEnv.encodeMeta (metaBase cEnv ["home", "x.foo"] none [1, 2])) ∧
      metaGet "format" (metaBase cEnv ["home", "x.foo"] none [1, 2]) =
        some (MetaVal.s (sniff_format (rawPathOf ["home", "x.foo"] none))) ∧
      metaGet "parquet" (metaBase cEnv ["home", "x.foo"] none [1, 2]) = none ∧
      metaGet "rows" (metaBase cEnv ["home", "x.foo"] none [1, 2]) = none ∧
      metaGet "columns" (metaBase cEnv ["home", "x.foo"] none [1, 2]) = none :=
  c9_skip_mode_metadata cEnv cSt ["home", "x.foo"] none none [1, 2] (by decide)

/-- C10: when the (resolved) source already is the raw destination, the copy
step is the identity on the state, and a whole `ingest_one` run leaves the
bytes at the raw path unchanged. -/
theorem c10_copy_skipped_when_source_is_raw :
    (∀ (st : State) (src raw : FPath) (b : Bytes), src = raw →
      copy_step st src raw b = st) ∧
    (∀ (env : Env) (st : State) (src : FPath) (rn sheet : Option String) (skip : Bool)
       (b : Bytes), st.files src = some b → src = rawPathOf src rn →
      (ingest_one env st src rn sheet skip).1.files (rawPathOf src rn) =
        st.files (rawPathOf src rn)) := by
  constructor
  · intro st src raw b h
    unfold copy_step
    rw [if_pos h]
  · intro env st src rn sheet skip b hsrc heq
    have h0 : (ensure_dirs st).files src = some b := by rw [ensure_dirs_files]; exact hsrc
    have hcopy : copy_step (ensure_dirs st) src (rawPathOf src rn) b = ensure_dirs st := by
      unfold copy_step; rw [if_pos heq]
    cases skip with
    | true =>
      rw [ingest_one_skip_eq env st src rn sheet b hsrc]
      simp only [write_metadata, State.mkdirp_files, State.write_files]
      rw [if_neg (rawPathOf_ne_metaPathOf src src rn rn)]
      rw [hcopy, ensure_dirs_files]
    | false =>
      cases hp : parse_bytes env.pandas (rawPathOf src rn) b sheet with
      | error e =>
        rw [ingest_one_noskip_error_eq env st src rn sheet b e hsrc hp]
        rw [hcopy]
        simp
      | ok r =>
        cases r with
        | multi sheets =>
          rw [ingest_one_noskip_multi_eq env st src rn sheet b sheets hsrc hp]
          rw [hcopy]
          simp
        | single df0 =>
          rw [ingest_one_noskip_single_eq env st src rn sheet b df0 hsrc hp]
          simp only [write_metadata, write_parquet, State.mkdirp_files, State.write_files]
          rw [if_neg (rawPathOf_ne_metaPathOf src src rn rn)]
          rw [if_neg (rawPathOf_ne_parquetPathOf src src rn rn)]
          rw [hcopy, ensure_dirs_files]

/-- C10 witness: re-ingesting `data/raw/r.csv`, already stored in the raw
directory, skips the copy and preserves those bytes. -/
theorem c10_copy_skipped_when_source_is_raw_witness :
    copy_step cSt ["data", "raw", "r.csv"] ["data", "raw", "r.csv"] [3] = cSt ∧
    (ingest_one cEnv cSt ["data", "raw", "r.csv"] none none false).1.files
        (rawPathOf ["data", "raw", "r.csv"] none) =
      cSt.files (rawPathOf ["data", "raw", "r.csv"] none) :=
  ⟨c10_copy_skipped_when_source_is_raw.1 cSt _ _ [3] rfl,
   c10_copy_skipped_when_source_is_raw.2 cEnv cSt ["data", "raw", "r.csv"] none none false [3]
     (by decide) (by decide)⟩

/-- C3: ingesting (without `--skip-parquet`) an existing file whose extension
is outside the recognized set writes the raw copy first, then fails with the
unsupported-format `ValueError` naming the file and its extension, and touches
no other file — in particular no standardized output and no metadata record. -/
theorem c3_unknown_ext_copy_then_fail (env : Env) (st : State) (src : FPath)
    (sheet : Option String) (b : Bytes)
    (hsrc : st.files src = some b) (hfmt : sniff_format src = "unknown") :
    ∃ st', ingest_one env st src none sheet false =
        (st', Except.error (Err.valueError
          ("Unsupported file format: " ++ pathName src ++ " (" ++
            pySuffix (pathName src) ++ ")"))) ∧
      st'.files (rawPathOf src none) = some b ∧
      ∀ q, q ≠ rawPathOf src none → st'.files q = st.files q := by
  have h0 : (ensure_dirs st).files src = some b := by rw [ensure_dirs_files]; exact hsrc
  have hfmt' : sniff_format (rawPathOf src none) = "unknown" := hfmt
  have hp : parse_bytes env.pandas (rawPathOf src none) b sheet =
      Except.error (Err.valueError
        ("Unsupported file format: " ++ pathName src ++ " (" ++
          pySuffix (pathName src) ++ ")")) := by
    simp only [parse_bytes, hfmt']
    rfl
  refine ⟨copy_step (ensure_dirs st) src (rawPathOf src none) b,
    ingest_one_noskip_error_eq env st src none sheet b _ hsrc hp,
    copy_step_files_raw h0, ?_⟩
  intro q hq
  rw [copy_step_files_other hq, ensure_dirs_files]

/-- C3 witness: ingesting the concrete unrecognized file `home/x.foo`. -/
theorem c3_unknown_ext_copy_then_fail_witness :
    ∃ st', ingest_one cEnv cSt ["home", "x.foo"] none none false =
        (st', Except.error (Err.valueError
          ("Unsupported file format: " ++ pathName ["home", "x.foo"] ++ " (" ++
            pySuffix (pathName ["home", "x.foo"]) ++ ")"))) ∧
      st'.files (rawPathOf ["home", "x.foo"] none) = some [1, 2] ∧
      ∀ q, q ≠ rawPathOf ["home", "x.foo"] none → st'.files q = cSt.files q :=
  c3_unknown_ext_copy_then_fail cEnv cSt ["home", "x.foo"] none [1, 2]
    (by decide) (by decide)

/-- C2 (amended): with conversion enabled, provided the decoded frame contains
neither a `source_file` nor an `ingested_at` column, the metadata record's
`rows` equals the decoded row count and `columns` is the decoded column list
with the two provenance columns appended last, in order. -/
theorem c2_rows_columns_amended (env : Env) (st : State) (src : FPath)
    (rn sheet : Option String) (b : Bytes) (st' : State) (meta : MetaDict) (df0 : DF)
    (hsrc : st.files src = some b)
    (hrun : ingest_one env st src rn sheet false = (st', Except.ok meta))
    (hparse : parse_bytes env.pandas (rawPathOf src rn) b sheet =
      Except.ok (ReadResult.single df0)) :
    metaGet "rows" meta = some (MetaVal.n df0.nrows) ∧
    ("source_file" ∉ df0.cols → "ingested_at" ∉ df0.cols →
      metaGet "columns" meta =
        some (MetaVal.arr (df0.cols ++ ["source_file", "ingested_at"]))) := by
  rw [ingest_one_noskip_single_eq env st src rn sheet b df0 hsrc hparse] at hrun
  rw [Prod.mk.injEq] at hrun
  obtain ⟨hst, hmeta⟩ := hrun
  have hm := Except.ok.inj hmeta
  subst hm
  constructor
  · rw [show metaGet "rows" ((metaBase env src rn b ++
      [("parquet", MetaVal.s (pathString (parquetPathOf src rn))),
       ("rows", MetaVal.n ((df0.setConstCol "source_file").setConstCol "ingested_at").nrows),
       ("columns",
        MetaVal.arr ((df0.setConstCol "source_file").setConstCol "ingested_at").cols)]) ++
      [("metadata", MetaVal.s (pathString (metaPathOf src rn)))]) =
      some (MetaVal.n ((df0.setConstCol "source_file").setConstCol "ingested_at").nrows)
      from rfl]
    simp
  · intro h1 h2
    have hc1 : (df0.setConstCol "source_file").cols = df0.cols ++ ["source_file"] :=
      DF.setConstCol_cols_of_not_mem h1
    have h2' : "ingested_at" ∉ (df0.setConstCol "source_file").cols := by
      rw [hc1]
      intro hmem
      rcases List.mem_append.mp hmem with hmem | hmem
      · exact h2 hmem
      · simp at hmem
    have hc2 : ((df0.setConstCol "source_file").setConstCol "ingested_at").cols =
        df0.cols ++ ["source_file", "ingested_at"] := by
      rw [DF.setConstCol_cols_of_not_mem h2', hc1, List.append_assoc]
      rfl
    rw [show metaGet "columns" ((metaBase env src rn b ++
      [("parquet", MetaVal.s (pathString (parquetPathOf src rn))),
       ("rows", MetaVal.n ((df0.setConstCol "source_file").setConstCol "ingested_at").nrows),
       ("columns",
        MetaVal.arr ((df0.setConstCol "source_file").setConstCol "ingested_at").cols)]) ++
      [("metadata", MetaVal.s (pathString (metaPathOf src rn)))]) =
      some (MetaVal.arr ((df0.setConstCol "source_file").setConstCol "ingested_at").cols)
      from rfl]
    rw [hc2]

/-- C2 witness: the concrete CSV `home/t.csv` whose decoded frame has columns
`a, b` and 2 rows. -/
theorem c2_rows_columns_amended_witness :
    metaGet "rows" cMetaCsv = some (MetaVal.n dfAB.nrows) ∧
    metaGet "columns" cMetaCsv =
      some (MetaVal.arr (dfAB.cols ++ ["source_file", "ingested_at"])) :=
  ⟨(c2_rows_columns_amended cEnv cSt ["home", "t.csv"] none none cBytes
      (ingest_one cEnv cSt ["home", "t.csv"] none none false).1 cMetaCsv dfAB
      (by decide) (by rfl) (by decide)).1,
   (c2_rows_columns_amended cEnv cSt ["home", "t.csv"] none none cBytes
      (ingest_one cEnv cSt ["home", "t.csv"] none none false).1 cMetaCsv dfAB
      (by decide) (by rfl) (by decide)).2 (by decide) (by decide)⟩

/-- The frame real pandas decodes from the CSV `source_file\n1\n`: one column
named `source_file`, one data row. -/
def dfSF : DF := { cols := ["source_file"], nrows := 1 }

/-- Pandas instance whose CSV reader yields `dfSF` (the behavior of
`pd.read_csv` on `cBytesSF`). -/
def cPandasSF : Pandas :=
  { read_csv := fun _ => dfSF
    read_json := fun _ => dfSF
    read_excel := fun _ => [("Sheet1", dfSF)]
    read_parquet := fun _ => dfSF
    to_parquet := fun _ => [7] }

/-- Environment for the provenance-column collision run. -/
def cEnvSF : Env :=
  { pandas := cPandasSF
    sha256 := fun _ => "deadbeef"
    nowIso := "2026-10-12T00:00:00+00:00"
    encodeMeta := fun _ => [9] }

/-- Bytes of `source_file\n1\n`. -/
def cBytesSF : Bytes := [115, 111, 117, 114, 99, 101, 95, 102, 105, 108, 101, 10, 49, 10]

/-- State holding only `home/s.csv` with contents `cBytesSF`. -/
def cStSF : State :=
  { files := fun p => if p = ["home", "s.csv"] then some cBytesSF else none
    dirs := []
    stderrLines := [] }

/-- The metadata dict returned for that ingestion. -/
def cMetaSF : MetaDict :=
  [("raw_file", MetaVal.s "data/raw/s.csv"),
   ("original_path", MetaVal.s "home/s.csv"),
   ("format", MetaVal.s "csv"),
   ("sha256", MetaVal.s "deadbeef"),
   ("ingested_at", MetaVal.s "2026-10-12T00:00:00+00:00"),
   ("parquet", MetaVal.s "data/processed/ingested/s.parquet"),
   ("rows", MetaVal.n 1),
   ("columns", MetaVal.arr ["source_file", "ingested_at"]),
   ("metadata", MetaVal.s "data/processed/ingested/s.meta.json")]

/-- C2 counterexample: a CSV whose decoded frame already has a `source_file`
column.  `df["source_file"] = ...` overwrites that column in place, so the
recorded `columns` is NOT the decoded columns followed by the two provenance
columns, refuting the claim as stated. -/
theorem c2_rows_columns_counterexample :
    parse_bytes cEnvSF.pandas (rawPathOf ["home", "s.csv"] none) cBytesSF none =
      Except.ok (ReadResult.single dfSF) ∧
    (ingest_one cEnvSF cStSF ["home", "s.csv"] none none false).2 = Except.ok cMetaSF ∧
    metaGet "columns" cMetaSF = some (MetaVal.arr ["source_file", "ingested_at"]) ∧
    some (MetaVal.arr ["source_file", "ingested_at"]) ≠
      some (MetaVal.arr (dfSF.cols ++ ["source_file", "ingested_at"])) := by
  refine ⟨by decide, by decide, by decide, by decide⟩

/-- C5 (amended): when at least one `--url` is supplied and `--name` is used,
a count mismatch makes `main` report the usage error and return exit code 2
before processing anything, with no file created or changed.  (With zero URLs
the check is skipped and `--name` is silently ignored.) -/
theorem c5_name_count_amended (env : Env) (req : Option Http) (st : State) (args : Args)
    (h1 : args.urls ≠ []) (h2 : args.names ≠ [])
    (h3 : args.names.length ≠ args.urls.length) :
    main env req st args = ((ensure_dirs st).errPrint nameCountMsg, Except.ok 2) ∧
    (main env req st args).1.files = st.files ∧
    (main env req st args).1.stderrLines = st.stderrLines ++ [nameCountMsg] := by
  have hmain : main env req st args =
      ((ensure_dirs st).errPrint nameCountMsg, Except.ok 2) := by
    simp only [main]
    rw [if_pos ⟨h1, h2, h3⟩]
  refine ⟨hmain, ?_, ?_⟩ <;> rw [hmain] <;> simp

/-- C5 witness: two URLs, one name. -/
theorem c5_name_count_amended_witness :
    main cEnv none cSt
        { inputs := [], urls := ["http://e/a.csv", "http://e/b.csv"], names := ["x"],
          excel_sheet := none, skip_parquet := false } =
      ((ensure_dirs cSt).errPrint nameCountMsg, Except.ok 2) ∧
    (main cEnv none cSt
        { inputs := [], urls := ["http://e/a.csv", "http://e/b.csv"], names := ["x"],
          excel_sheet := none, skip_parquet := false }).1.files = cSt.files ∧
    (main cEnv none cSt
        { inputs := [], urls := ["http://e/a.csv", "http://e/b.csv"], names := ["x"],
          excel_sheet := none, skip_parquet := false }).1.stderrLines =
      cSt.stderrLines ++ [nameCountMsg] :=
  c5_name_count_amended cEnv none cSt
    { inputs := [], urls := ["http://e/a.csv", "http://e/b.csv"], names := ["x"],
      excel_sheet := none, skip_parquet := false }
    (by decide) (by decide) (by decide)

/-- C5 counterexample: `--name` used with zero `--url` and one `--input`.
The mismatch check sits inside the url branch, so `main` ignores the name,
ingests the local file and exits 0 having produced files — refuting the
claim's "for every URL count, including zero" clause. -/
theorem c5_name_count_counterexample :
    (["x"] : List String).length ≠ ([] : List String).length ∧
    (main cEnv none cSt
        { inputs := [["home", "t.csv"]], urls := [], names := ["x"],
          excel_sheet := none, skip_parquet := false }).2 = Except.ok 0 ∧
    (main cEnv none cSt
        { inputs := [["home", "t.csv"]], urls := [], names := ["x"],
          excel_sheet := none, skip_parquet := false }).1.files
        ["data", "raw", "t.csv"] = some cBytes := by
  refine ⟨by decide, by decide, by decide⟩

/-- C6 (amended): with neither `--input` nor `--url`, `main` prints the
nothing-to-ingest message to stderr and exits 2 producing no files; however
`ensure_dirs` has already run, so the raw and processed directories are
(idempotently) created — directory-creation I/O does happen before the check. -/
theorem c6_nothing_to_ingest_amended (env : Env) (req : Option Http) (st : State)
    (args : Args) (h1 : args.urls = []) (h2 : args.inputs = []) :
    main env req st args = ((ensure_dirs st).errPrint nothingMsg, Except.ok 2) ∧
    (main env req st args).1.files = st.files ∧
    (main env req st args).1.stderrLines = st.stderrLines ++ [nothingMsg] ∧
    (main env req st args).1.dirs = (ensure_dirs st).dirs := by
  obtain ⟨ins, urls, names, sheet, skip⟩ := args
  dsimp only at h1 h2
  subst h1
  subst h2
  refine ⟨rfl, ?_, ?_, ?_⟩ <;> simp [main, processUrls, processInputs]

/-- C6 witness: the empty invocation from a fresh state. -/
theorem c6_nothing_to_ingest_amended_witness :
    main cEnv none { files := fun _ => none, dirs := [], stderrLines := [] }
        { inputs := [], urls := [], names := [], excel_sheet := none,
          skip_parquet := false } =
      ((ensure_dirs { files := fun _ => none, dirs := [], stderrLines := [] }).errPrint
         nothingMsg, Except.ok 2) ∧
    (main cEnv none { files := fun _ => none, dirs := [], stderrLines := [] }
        { inputs := [], urls := [], names := [], excel_sheet := none,
          skip_parquet := false }).1.files =
      ({ files := fun _ => none, dirs := [], stderrLines := [] } : State).files ∧
    (main cEnv none { files := fun _ => none, dirs := [], stderrLines := [] }
        { inputs := [], urls := [], names := [], excel_sheet := none,
          skip_parquet := false }).1.stderrLines =
      ({ files := fun _ => none, dirs := [], stderrLines := [] } : State).stderrLines ++
        [nothingMsg] ∧
    (main cEnv none { files := fun _ => none, dirs := [], stderrLines := [] }
        { inputs := [], urls := [], names := [], excel_sheet := none,
          skip_parquet := false }).1.dirs =
      (ensure_dirs { files := fun _ => none, dirs := [], stderrLines := [] }).dirs :=
  c6_nothing_to_ingest_amended cEnv none
    { files := fun _ => none, dirs := [], stderrLines := [] }
    { inputs := [], urls := [], names := [], excel_sheet := none, skip_parquet := false }
    rfl rfl

/-- C6 counterexample: on a fresh state the empty invocation does exit 2, but
the two storage directories get created first, so filesystem I/O is performed,
refuting the claim's "performing no I/O" clause. -/
theorem c6_nothing_to_ingest_counterexample :
    (main cEnv none { files := fun _ => none, dirs := [], stderrLines := [] }
        { inputs := [], urls := [], names := [], excel_sheet := none,
          skip_parquet := false }).2 = Except.ok 2 ∧
    ({ files := fun _ => none, dirs := [], stderrLines := [] } : State).dirs = [] ∧
    (main cEnv none { files := fun _ => none, dirs := [], stderrLines := [] }
        { inputs := [], urls := [], names := [], excel_sheet := none,
          skip_parquet := false }).1.dirs = [RAW_DIR, PROC_DIR] := by
  refine ⟨by decide, by decide, by decide⟩

/-- C8: with no HTTP client present, every fetch fails immediately with the
configuration error telling the caller to install `requests` or use local
files, and a run with no URLs is entirely independent of the HTTP client. -/
theorem c8_http_optional :
    (∀ (st : State) (url : String) (dest : FPath),
      download_file none st url dest = (st, Except.error (Err.runtimeError
        "requests is not installed. Install it or use --input local files."))) ∧
    (∀ (env : Env) (r1 r2 : Option Http) (st : State) (args : Args), args.urls = [] →
      main env r1 st args = main env r2 st args) := by
  constructor
  · intro st url dest; rfl
  · intro env r1 r2 st args h
    obtain ⟨ins, urls, names, sheet, skip⟩ := args
    dsimp only at h
    subst h
    rfl

/-- C8 witness: the fetch error on a concrete URL, and a concrete local-only
run unchanged under two different HTTP clients. -/
theorem c8_http_optional_witness :
    download_file none cSt "http://example.com/d.csv" ["data", "raw", "d.csv"] =
      (cSt, Except.error (Err.runtimeError
        "requests is not installed. Install it or use --input local files.")) ∧
    main cEnv none cSt
        { inputs := [["home", "t.csv"]], urls := [], names := [],
          excel_sheet := none, skip_parquet := false } =
      main cEnv (some (fun _ => Except.error 500)) cSt
        { inputs := [["home", "t.csv"]], urls := [], names := [],
          excel_sheet := none, skip_parquet := false } :=
  ⟨c8_http_optional.1 cSt "http://example.com/d.csv" ["data", "raw", "d.csv"],
   c8_http_optional.2 cEnv none (some (fun _ => Except.error 500)) cSt
     { inputs := [["home", "t.csv"]], urls := [], names := [],
       excel_sheet := none, skip_parquet := false } rfl⟩

/-- The metadata dict returned by ingesting `home/t.xlsx` with `--excel-sheet Sheet1`. -/
def cMetaXlsx : MetaDict :=
  [("raw_file", MetaVal.s "data/raw/t.xlsx"),
   ("original_path", MetaVal.s "home/t.xlsx"),
   ("format", MetaVal.s "excel"),
   ("sha256", MetaVal.s "deadbeef"),
   ("ingested_at", MetaVal.s "2026-10-12T00:00:00+00:00"),
   ("parquet", MetaVal.s "data/processed/ingested/t.parquet"),
   ("rows", MetaVal.n 2),
   ("columns", MetaVal.arr ["a", "b", "source_file", "ingested_at"]),
   ("metadata", MetaVal.s "data/processed/ingested/t.meta.json")]

/-- C4 (code bug): with a named sheet `read_any` parses that sheet and returns
one frame, but with no selector the script passes `sheet_name=None`, for which
pandas returns the dict of ALL sheets (contradicting `read_any`'s declared
`pd.DataFrame` return type), and the ingestion then crashes at
`df.to_parquet` with an `AttributeError` instead of parsing a default sheet. -/
theorem c4_excel_default_sheet_code_bug :
    parse_bytes cEnv.pandas (rawPathOf ["home", "t.xlsx"] none) [5] (some "Sheet1") =
      Except.ok (ReadResult.single dfAB) ∧
    (ingest_one cEnv cSt ["home", "t.xlsx"] none (some "Sheet1") false).2 =
      Except.ok cMetaXlsx ∧
    parse_bytes cEnv.pandas (rawPathOf ["home", "t.xlsx"] none) [5] none =
      Except.ok (ReadResult.multi [("Sheet1", dfAB)]) ∧
    (ingest_one cEnv cSt ["home", "t.xlsx"] none none false).2 =
      Except.error (Err.attributeError "dict object has no attribute to_parquet") := by
  refine ⟨by decide, by decide, by decide, by decide⟩

